import Mathlib

/-!
# Verification of the MedChain Streamlit admin dashboard (`src/app.py`)

Shallow embedding of the pure decision logic of `app.py`:
record field mappings are ordered association lists (Python dicts with
insertion order), HTTP outcomes are `Except`/status-code values, and each
button handler becomes a function from its inputs (and the outcomes of the
remote calls it makes) to the list of API calls it issues and the message it
reports.  Theorems below settle the spec's claims against these definitions.
All definitions come first, then the theorems.
-/

namespace Medchain

/-- A record's field mapping: a Python dict with insertion order, keys and
values both rendered as strings (all UI inputs and dataframe cells are
text-like; values are otherwise opaque to the dashboard logic). -/
abbrev Fields := List (String × String)

/-- The key list of a mapping (`dict.keys()`). -/
def keys (m : Fields) : List String := m.map Prod.fst

/-- Python `k in d` membership test on a dict. -/
def hasKey (m : Fields) (k : String) : Bool := m.any (fun kv => kv.1 == k)

/-- Python dict assignment `d[k] = v`: overwrite in place when the key is
present, append otherwise (insertion order preserved). -/
def insertKV (m : Fields) (k v : String) : Fields :=
  if hasKey m k then m.map (fun kv => if kv.1 == k then (k, v) else kv)
  else m ++ [(k, v)]

/-! ## API helpers (`app.py` lines 85-112)

The outcome of a `requests` call is modelled as `Except String Nat`:
`.error msg` is a transport/timeout exception raised by `requests.get`,
`.ok status` a response with the given HTTP status code. -/

/-- Model of `Response.raise_for_status()` from the `requests` library:
raises `HTTPError` exactly when the status code is in `[400, 600)`. -/
def raise_for_status (status : Nat) : Except String Unit :=
  if 400 ≤ status ∧ status < 600 then Except.error ("HTTP error " ++ toString status)
  else Except.ok ()

/-- Health check `api_ok` (lines 85-91): `GET /health`, `raise_for_status`,
`return True`, with a catch-all `except Exception: return False`.  Total:
every outcome of the request maps to a boolean, nothing escapes to the
caller. -/
def api_ok (resp : Except String Nat) : Bool :=
  match resp with
  | Except.error _ => false
  | Except.ok status =>
    match raise_for_status status with
    | Except.ok _ => true
    | Except.error _ => false

/-! ## Add Record handler (`app.py` lines 247-257) -/

/-- Whitespace set of Python `str.strip()` (ASCII part): space, tab,
newline, carriage return, vertical tab, form feed. -/
def pyIsSpace (c : Char) : Bool :=
  c == ' ' || c == '\t' || c == '\n' || c == '\r' || c == '\x0b' || c == '\x0c'

/-- Model of Python `str.strip()` with no argument: drop leading and
trailing whitespace. -/
def pyStrip (s : String) : String :=
  String.mk ((((s.data.dropWhile pyIsSpace).reverse).dropWhile pyIsSpace).reverse)

/-- The payload built by the Add handler (lines 248-252): start from `{}`,
insert `name`/`note` stripped when non-blank, and each custom key/value pair
when its *key* is non-blank (the value is sent verbatim, even blank).
`if s.strip():` tests non-emptiness of the stripped text. -/
def addPayload (nameIn noteIn k1 v1 k2 v2 : String) : Fields :=
  let p : Fields := []
  let p := if pyStrip nameIn ≠ "" then insertKV p "name" (pyStrip nameIn) else p
  let p := if pyStrip noteIn ≠ "" then insertKV p "note" (pyStrip noteIn) else p
  let p := if pyStrip k1 ≠ "" then insertKV p (pyStrip k1) v1 else p
  let p := if pyStrip k2 ≠ "" then insertKV p (pyStrip k2) v2 else p
  p

/-- The create calls issued by one click of "Add Record" (line 254):
`api_create(payload if payload else {})` — always exactly one call, and
`payload if payload else {}` is the identity since the empty payload is
already `{}`. -/
def addCalls (nameIn noteIn k1 v1 k2 v2 : String) : List Fields :=
  [addPayload nameIn noteIn k1 v1 k2 v2]

/-! ## Save edits / Delete selected handlers (`app.py` lines 184-223)

The data editor shows `view` (the possibly filtered dataframe with the helper
`_delete` column); `edited` is the grid after the user's edits.  Rows are
`Fields` mappings whose keys are the dataframe's columns in column order
(rectangular data: both snapshots enumerate the same columns in the same
order, so Python's order-insensitive dict equality coincides with list
equality here). -/

/-- Model of `df.set_index("id")` (lines 196-197): each row keeps its `id`
cell as the index and drops the `id` column from the mapping.  Rows without
an `id` key cannot arise from a dataframe that has the `id` column. -/
def setIndexId (rows : List Fields) : List (String × Fields) :=
  rows.filterMap (fun r =>
    (List.lookup "id" r).map (fun rid => (rid, r.filter (fun kv => !(kv.1 == "id")))))

/-- Lines 205-206: `after.pop("_delete", None)` and conditional
`after.pop("createdAt", None)` — remove those keys when present. -/
def stripPayload (r : Fields) : Fields :=
  r.filter (fun kv => !(kv.1 == "_delete") && !(kv.1 == "createdAt"))

/-- Lines 202-208 for one row id: compare the full pre-edit and post-edit
mappings (`before != after`, including the `_delete` flag and `createdAt`);
when they differ, issue `api_update(str(rid), after)` with the popped
payload. -/
def diffAt (base eNew : List (String × Fields)) (rid : String) :
    Option (String × Fields) :=
  match List.lookup rid base, List.lookup rid eNew with
  | some before, some after =>
    if before = after then none else some (rid, stripPayload after)
  | _, _ => none

/-- Line 200: `set(base.index).intersection(set(new.index))` — ids present in
both snapshots (modelled in base order; the handler's behaviour per id does
not depend on the iteration order). -/
def commonIds (base eNew : List (String × Fields)) : List String :=
  (base.map Prod.fst).filter (fun rid => (eNew.map Prod.fst).contains rid)

/-- The update calls `(rid, payload)` issued by one click of "Save edits"
(lines 194-208), given the pre-edit rows `v` and the post-edit rows `e`. -/
def saveEdits (v e : List Fields) : List (String × Fields) :=
  (commonIds (setIndexId v) (setIndexId e)).filterMap
    (diffAt (setIndexId v) (setIndexId e))

/-- Lines 217-218: the ids of rows whose `_delete` checkbox is ticked
(pandas booleans rendered as `"True"`/`"False"`). -/
def flaggedIds (edited : List Fields) : List String :=
  edited.filterMap (fun r =>
    if List.lookup "_delete" r = some "True" then List.lookup "id" r else none)

/-! ### Sequential batch execution with failure

Both mutation loops (lines 201-208 and 218-220) run inside a single
`try`/`except`: the first remote call that raises aborts the whole loop and
replaces the success message by an error, so no count is reported.  The
outcome of each remote call is modelled by `ok`, a predicate on the record
id; the result is the list of calls actually issued (in order, including the
failing one) together with `some count` when the loop completed and `none`
when it was aborted by an exception. -/

/-- The "Save edits" loop: issue the updates in order; stop at the first
failure (no count reported); on full success report the number issued. -/
def runUpdates (ok : String → Bool) :
    List (String × Fields) → List (String × Fields) × Option Nat
  | [] => ([], some 0)
  | c :: rest =>
    if ok c.1 then
      ((c :: (runUpdates ok rest).1), (runUpdates ok rest).2.map (fun n => n + 1))
    else ([c], none)

/-- The "Delete selected" loop, same shape over flagged ids. -/
def runDeletes (ok : String → Bool) : List String → List String × Option Nat
  | [] => ([], some 0)
  | rid :: rest =>
    if ok rid then
      ((rid :: (runDeletes ok rest).1), (runDeletes ok rest).2.map (fun n => n + 1))
    else ([rid], none)

/-! ## Record-list load path (`app.py` lines 93-97 and 127-137)

Here `api_list` calls `raise_for_status` and returns the parsed rows; its
outcome is modelled as `Except String (List Fields)` (`.error` = transport
error or raised `HTTPError`).  `load_df_cache` (lines 127-132) normalises
`createdAt` inside the fetched frame, and the call site
`df = load_df_cache(...)` on line 137 has **no** `try`/`except` around it. -/

/-- Model of `pd.to_datetime(v, unit="ms", errors="coerce")` for one cell:
a millisecond integer becomes a datetime display value, anything unparsable
becomes `NaT` (not an error). -/
def msToDatetime (v : String) : String :=
  match v.toNat? with
  | some n => "datetime-ms-" ++ toString n
  | none => "NaT"

/-- The `createdAt` normalisation applied by `load_df_cache` to each row. -/
def normalizeCreatedAt (r : Fields) : Fields :=
  r.map (fun kv => if kv.1 == "createdAt" then (kv.1, msToDatetime kv.2) else kv)

/-- Cached loader `load_df_cache` (lines 127-132): runs `api_list()` and
normalises `createdAt`; it installs no exception handler, so a fetch failure
simply propagates. -/
def load_df_cache (fetch : Except String (List Fields)) :
    Except String (List Fields) :=
  fetch.map (fun rows => rows.map normalizeCreatedAt)

/-- The observable outcome of one script run's load phase. -/
inductive RunOutcome where
  /-- The page renders with the given table and (hypothetically) an inline
  error message; the code has no such message for the load path. -/
  | page : List Fields → Option String → RunOutcome
  /-- An exception escaped line 137 uncaught and aborted the script run. -/
  | crash : String → RunOutcome
deriving DecidableEq

/-- Line 137, `df = load_df_cache(st.session_state.refresh_key)`: a
successful fetch renders the page; an exception propagates uncaught (there
is no `try`/`except` on the load path), crashing the run. -/
def runLoad (fetch : Except String (List Fields)) : RunOutcome :=
  match load_df_cache fetch with
  | Except.ok rows => RunOutcome.page rows none
  | Except.error e => RunOutcome.crash e

/-! ## CSV import (`app.py` lines 261-280) -/

/-- A parsed CSV cell: `none` models a missing value (pandas `NaN`). -/
abbrev Cell := Option String

/-- Line 271: `d = {k: ("" if pd.isna(v) else v) for k, v in
row.to_dict().items()}` — every CSV column becomes a payload key, `NaN`
cells becoming empty strings.  No key is dropped: `id` and `createdAt`
columns pass straight through. -/
def csvRowPayload (row : List (String × Cell)) : Fields :=
  row.map (fun kv => (kv.1, kv.2.getD ""))

/-- Lines 269-276: the import loop.  Each element of `rows` is one CSV row's
payload together with the outcome of its `api_create` call (`true` =
created, `false` = the call raised).  The inner `try`/`except ... pass`
swallows per-row failures, so the fold visits every row; `created` counts
the successes.  Returns (payloads attempted in order, reported count). -/
def csvImport (rows : List (Fields × Bool)) : List Fields × Nat :=
  rows.foldl
    (fun acc rb => (acc.1 ++ [rb.1], if rb.2 then acc.2 + 1 else acc.2))
    ([], 0)

/-! ## Search filter (`app.py` lines 170-173)

Line 172 is `view.astype(str).apply(lambda s: s.str.contains(q, case=False,
na=False)).any(axis=1)`.  Pandas `Series.str.contains` with its default
`regex=True` interprets `q` as a *regular expression* (Python `re.search`),
case-insensitively — not as a literal substring.  We model `re.search` for
the fragment consisting of literal characters and the metacharacter `.`
(match any character); the theorems below only ever apply the model inside
that fragment (`.` itself for the counterexample, metacharacter-free
patterns for the amended claim).  Case-insensitivity (`case=False`, i.e.
`re.IGNORECASE`) is modelled by lowering both pattern and text (`str.lower`
restricted to ASCII). -/

/-- ASCII `str.lower` on one character. -/
def asciiLower (c : Char) : Char :=
  if 65 ≤ c.toNat ∧ c.toNat ≤ 90 then Char.ofNat (c.toNat + 32) else c

/-- ASCII `str.lower` on a string. -/
def pyLower (s : String) : String := String.mk (s.data.map asciiLower)

/-- Python regex metacharacters (outside character classes). -/
def regexMeta (c : Char) : Bool :=
  c == '.' || c == '^' || c == '$' || c == '*' || c == '+' || c == '?' ||
  c == '(' || c == ')' || c == '[' || c == ']' || c == '\x7b' || c == '\x7d' ||
  c == '|' || c == '\\'

/-- True iff `q` contains no regex metacharacter. -/
def noMeta (q : String) : Bool := q.data.all (fun c => !(regexMeta c))

/-- Match the pattern against a prefix of the text: a literal character
matches itself, `.` matches any character. -/
def reMatchHere : List Char → List Char → Bool
  | [], _ => true
  | _ :: _, [] => false
  | p :: ps, c :: cs => (p == '.' || p == c) && reMatchHere ps cs

/-- Model of `re.search(pat, s)` for the modelled fragment: the pattern
matches at some position of the text. -/
def reSearch (pat s : String) : Bool :=
  (s.data.tails).any (fun t => reMatchHere pat.data t)

/-- A row matches the query when some field's text matches the query as a
case-insensitive regex (`str.contains(q, case=False, na=False)` per column,
`.any(axis=1)` across them). -/
def rowMatches (q : String) (r : Fields) : Bool :=
  r.any (fun kv => reSearch (pyLower q) (pyLower kv.2))

/-- Lines 170-173: empty query leaves the view unfiltered (`if q:`);
otherwise keep the rows whose mask bit is set. -/
def filterView (q : String) (rows : List Fields) : List Fields :=
  if q = "" then rows else rows.filter (rowMatches q)

/-- Modelled from the spec's words, for comparison: literal case-insensitive
substring containment (`s` contains `sub`). -/
def containsSubstr (s sub : String) : Bool :=
  (s.data.tails).any (fun t => sub.data.isPrefixOf t)

/-- The spec's "matches query" predicate: some field's text contains the
query as a literal substring, case-insensitively. -/
def rowMatchesSpec (q : String) (r : Fields) : Bool :=
  r.any (fun kv => containsSubstr (pyLower kv.2) (pyLower q))

/-! ## Lemmas about keys, lookups and filtered payloads -/

theorem keys_append (m m' : Fields) : keys (m ++ m') = keys m ++ keys m' := by
  simp [keys]

theorem keys_overwrite (m : Fields) (k v : String) :
    keys (m.map (fun kv => if kv.1 == k then (k, v) else kv)) = keys m := by
  unfold keys
  rw [List.map_map]
  apply List.map_congr_left
  intro kv _
  by_cases h : kv.1 = k <;> simp [Function.comp, h]

theorem hasKey_iff (m : Fields) (k : String) : hasKey m k = true ↔ k ∈ keys m := by
  simp [hasKey, keys, List.any_eq_true, List.mem_map, beq_iff_eq]

theorem mem_keys_insertKV (m : Fields) (k v k' : String) :
    k' ∈ keys (insertKV m k v) ↔ k' ∈ keys m ∨ k' = k := by
  unfold insertKV
  by_cases h : hasKey m k = true
  · rw [if_pos h, keys_overwrite]
    have hk : k ∈ keys m := (hasKey_iff m k).mp h
    constructor
    · exact Or.inl
    · rintro (hm | rfl)
      · exact hm
      · exact hk
  · rw [if_neg h, keys_append]
    simp [keys]

theorem keys_nil : keys ([] : Fields) = [] := rfl

theorem lookup_mem {l : List (String × Fields)} {k : String} {b : Fields}
    (h : List.lookup k l = some b) : (k, b) ∈ l := by
  induction l with
  | nil => simp [List.lookup] at h
  | cons p t ih =>
    rcases p with ⟨a, c⟩
    cases hka : k == a with
    | true =>
      simp only [List.lookup, hka] at h
      obtain rfl : c = b := Option.some.inj h
      obtain rfl : k = a := eq_of_beq hka
      exact List.mem_cons_self _ _
    | false =>
      simp only [List.lookup, hka] at h
      exact List.mem_cons_of_mem _ (ih h)

theorem hasKey_filter_false (r : Fields) (p : String × String → Bool) (k : String)
    (hp : ∀ kv, p kv = true → (kv.1 == k) = false) :
    hasKey (r.filter p) k = false := by
  unfold hasKey
  rw [List.any_eq_false]
  intro kv hkv
  rw [List.mem_filter] at hkv
  simp [hp kv hkv.2]

theorem hasKey_filter_mono (r : Fields) (p : String × String → Bool) (k : String)
    (h : hasKey r k = false) : hasKey (r.filter p) k = false := by
  unfold hasKey at h ⊢
  rw [List.any_eq_false] at h ⊢
  intro kv hkv
  exact h kv (List.mem_filter.mp hkv).1

/-- Every row mapping produced by `set_index("id")` has no `id` key left. -/
theorem setIndexId_no_id {e : List Fields} {rid : String} {after : Fields}
    (h : (rid, after) ∈ setIndexId e) : hasKey after "id" = false := by
  unfold setIndexId at h
  rw [List.mem_filterMap] at h
  obtain ⟨r0, -, hmap⟩ := h
  cases hl : List.lookup "id" r0 with
  | none =>
    rw [hl] at hmap
    exact absurd hmap (by simp)
  | some rid0 =>
    rw [hl] at hmap
    obtain ⟨-, hafter⟩ : rid0 = rid ∧ r0.filter (fun kv => !(kv.1 == "id")) = after :=
      Prod.mk.inj (Option.some.inj hmap)
    rw [← hafter]
    apply hasKey_filter_false
    intro kv hkv
    simpa using hkv

/-- Characterisation of one row's contribution to "Save edits": an update is
emitted for `rid` exactly from a pair of looked-up mappings that differ. -/
theorem diffAt_eq_some {base eNew : List (String × Fields)} {rid : String}
    {u : String × Fields} (h : diffAt base eNew rid = some u) :
    ∃ before after, List.lookup rid base = some before ∧
      List.lookup rid eNew = some after ∧ before ≠ after ∧
      u = (rid, stripPayload after) := by
  unfold diffAt at h
  split at h
  next before after hb ha =>
    split at h
    next => exact absurd h (by simp)
    next hne => exact ⟨before, after, hb, ha, hne, (Option.some.inj h).symm⟩
  next => exact absurd h (by simp)

theorem runUpdates_abort (ok : String → Bool) (c : String × Fields)
    (post : List (String × Fields)) (h2 : ok c.1 = false) :
    ∀ pre, pre.all (fun u => ok u.1) = true →
      runUpdates ok (pre ++ c :: post) = (pre ++ [c], none) := by
  intro pre
  induction pre with
  | nil =>
    intro _
    simp [runUpdates, h2]
  | cons p t ih =>
    intro h1
    rw [List.all_cons, Bool.and_eq_true] at h1
    simp [runUpdates, h1.1, ih h1.2]

theorem runDeletes_abort (ok : String → Bool) (d : String)
    (post : List String) (h4 : ok d = false) :
    ∀ pre, pre.all ok = true →
      runDeletes ok (pre ++ d :: post) = (pre ++ [d], none) := by
  intro pre
  induction pre with
  | nil =>
    intro _
    simp [runDeletes, h4]
  | cons p t ih =>
    intro h1
    rw [List.all_cons, Bool.and_eq_true] at h1
    simp [runDeletes, h1.1, ih h1.2]

theorem csvImport_foldl (rows : List (Fields × Bool)) (acc : List Fields) (n : Nat) :
    rows.foldl
      (fun acc rb => (acc.1 ++ [rb.1], if rb.2 then acc.2 + 1 else acc.2))
      (acc, n)
      = (acc ++ rows.map Prod.fst, n + (rows.filter (fun rb => rb.2)).length) := by
  induction rows generalizing acc n with
  | nil => simp
  | cons rb rest ih =>
    rcases hb : rb.2 with _ | _
    · simp [List.foldl_cons, hb, ih]
    · simp [List.foldl_cons, hb, ih]
      omega

theorem not_meta_not_dot {c : Char} (h : regexMeta c = false) :
    (c == '.') = false := by
  unfold regexMeta at h
  simp only [Bool.or_eq_false_iff] at h
  exact h.1.1.1.1.1.1.1.1.1.1.1.1.1

theorem reMatchHere_eq_isPrefixOf (p : List Char)
    (hp : p.all (fun c => !(regexMeta c)) = true) :
    ∀ t, reMatchHere p t = p.isPrefixOf t := by
  induction p with
  | nil =>
    intro t
    cases t <;> rfl
  | cons c ps ih =>
    rw [List.all_cons, Bool.and_eq_true] at hp
    intro t
    cases t with
    | nil => rfl
    | cons a as =>
      have hm : regexMeta c = false := by
        have h1 := hp.1
        rwa [Bool.not_eq_true'] at h1
      simp [reMatchHere, List.isPrefixOf, not_meta_not_dot hm, ih hp.2]

theorem reSearch_eq_containsSubstr (pat s : String) (hp : noMeta pat = true) :
    reSearch pat s = containsSubstr s pat := by
  unfold reSearch containsSubstr
  have hfun : (fun t => reMatchHere pat.data t)
      = (fun t => pat.data.isPrefixOf t) :=
    funext (fun t => reMatchHere_eq_isPrefixOf pat.data hp t)
  rw [hfun]

/-! ## Claim C1 (table workflow: unchanged rows and the deletion flag) -/

/-- Claim C1, counterexample to the claim as stated: a row whose field
mapping excluding the `_delete` flag and the reserved fields is unchanged
(only the `_delete` checkbox was ticked) still triggers an `api_update`
call, because line 204 compares the full dicts (`before != after`) *before*
stripping the flag. -/
theorem save_edits_flag_only_issues_update :
    saveEdits [[("id", "1"), ("name", "A"), ("_delete", "False")]]
              [[("id", "1"), ("name", "A"), ("_delete", "True")]]
      = [("1", [("name", "A")])] ∧
    stripPayload [("name", "A"), ("_delete", "False")]
      = stripPayload [("name", "A"), ("_delete", "True")] := by
  constructor <;> rfl

/-- Claim C1 amended: no update call is issued for a row whose *full*
post-edit mapping (including the `_delete` flag and `createdAt`) equals its
pre-edit mapping; equality of the mappings with the flag and reserved fields
excluded does not suffice. -/
theorem save_edits_unchanged_row_no_update (v e : List Fields) (rid : String)
    (fs : Fields)
    (hb : List.lookup rid (setIndexId v) = some fs)
    (ha : List.lookup rid (setIndexId e) = some fs) :
    (saveEdits v e).all (fun u => !(u.1 == rid)) = true := by
  rw [List.all_eq_true]
  intro u hu
  unfold saveEdits at hu
  rw [List.mem_filterMap] at hu
  obtain ⟨rid2, -, hd⟩ := hu
  obtain ⟨before, after, hb2, ha2, hne, rfl⟩ := diffAt_eq_some hd
  by_cases hr : rid2 = rid
  · subst hr
    rw [hb] at hb2
    rw [ha] at ha2
    obtain rfl : fs = before := Option.some.inj hb2
    obtain rfl : fs = after := Option.some.inj ha2
    exact absurd rfl hne
  · simpa using hr

/-- Witness for the amended C1: an untouched row (same snapshot on both
sides) receives no update call. -/
theorem save_edits_unchanged_row_no_update_witness :
    List.lookup "1" (setIndexId [[("id", "1"), ("name", "A"), ("_delete", "False")]])
      = some [("name", "A"), ("_delete", "False")] ∧
    ((saveEdits [[("id", "1"), ("name", "A"), ("_delete", "False")]]
        [[("id", "1"), ("name", "A"), ("_delete", "False")]]).all
      (fun u => !(u.1 == "1"))) = true :=
  ⟨rfl,
    save_edits_unchanged_row_no_update
      [[("id", "1"), ("name", "A"), ("_delete", "False")]]
      [[("id", "1"), ("name", "A"), ("_delete", "False")]]
      "1" [("name", "A"), ("_delete", "False")] rfl rfl⟩

/-! ## Claim C2 (Add payload contains exactly the non-blank fields) -/

/-- Claim C2: for every Add-form submission (unconditionally — so in
particular whenever at least one named field is non-blank), exactly one
create call is issued, and its payload contains exactly the keys coming from
non-blank inputs: `name` iff the name box is non-blank, `note` iff the note
box is non-blank, and each custom key (stripped) iff that key box is
non-blank.  No key of a blank input appears. -/
theorem add_create_payload_exact (nameIn noteIn k1 v1 k2 v2 k : String) :
    addCalls nameIn noteIn k1 v1 k2 v2 = [addPayload nameIn noteIn k1 v1 k2 v2] ∧
    (k ∈ keys (addPayload nameIn noteIn k1 v1 k2 v2) ↔
      ((k = "name" ∧ pyStrip nameIn ≠ "") ∨ (k = "note" ∧ pyStrip noteIn ≠ "") ∨
       (k = pyStrip k1 ∧ pyStrip k1 ≠ "") ∨ (k = pyStrip k2 ∧ pyStrip k2 ≠ ""))) := by
  refine ⟨rfl, ?_⟩
  unfold addPayload
  by_cases h1 : pyStrip nameIn = "" <;> by_cases h2 : pyStrip noteIn = "" <;>
    by_cases h3 : pyStrip k1 = "" <;> by_cases h4 : pyStrip k2 = "" <;>
      simp only [h1, h2, h3, h4, ne_eq, not_true_eq_false, not_false_eq_true,
        if_true, if_false, ite_true, ite_false, mem_keys_insertKV, keys_nil,
        List.not_mem_nil, false_or, or_false] <;> tauto

/-! ## Claim C3 (record-list fetch failure is not caught) -/

/-- Claim C3, counterexample to the claim as stated: a concrete fetch
failure is not caught — the run crashes instead of showing an empty table
with an inline message. -/
theorem fetch_failure_crash_counterexample :
    runLoad (Except.error "ConnectionError: connection refused")
      = RunOutcome.crash "ConnectionError: connection refused" ∧
    runLoad (Except.error "ConnectionError: connection refused")
      ≠ RunOutcome.page [] (some "ConnectionError: connection refused") := by
  constructor
  · rfl
  · decide

/-- Claim C3 amended: the record-list fetch is the one remote call whose
failure is *not* caught at the point of use — every failing fetch propagates
out of line 137 uncaught and aborts the script run, while a successful fetch
renders the (normalised) table with no inline error. -/
theorem fetch_failure_propagates (e : String) (rows : List Fields) :
    runLoad (Except.error e) = RunOutcome.crash e ∧
    runLoad (Except.ok rows) = RunOutcome.page (rows.map normalizeCreatedAt) none :=
  ⟨rfl, rfl⟩

/-! ## Claim C4 (CSV import does not drop `id`/`createdAt` columns) -/

/-- Claim C4, counterexample to the claim as stated: a CSV with an `id` (or
`createdAt`) column yields per-row create payloads that *do* contain those
keys. -/
theorem csv_id_column_counterexample :
    csvRowPayload [("id", some "7"), ("createdAt", some "123"), ("city", none)]
      = [("id", "7"), ("createdAt", "123"), ("city", "")] ∧
    hasKey (csvRowPayload [("id", some "7"), ("createdAt", some "123"), ("city", none)])
      "id" = true ∧
    hasKey (csvRowPayload [("id", some "7"), ("createdAt", some "123"), ("city", none)])
      "createdAt" = true := by
  refine ⟨rfl, rfl, rfl⟩

/-- Claim C4 amended: the per-row create payload keeps *every* CSV column
key, in order — including `id` and `createdAt` when those columns exist —
and replaces missing (`NaN`) cells by the empty string. -/
theorem csvRowPayload_keeps_all_columns (row : List (String × Cell)) :
    keys (csvRowPayload row) = row.map Prod.fst := by
  unfold csvRowPayload keys
  rw [List.map_map]
  rfl

/-! ## Claim C5 (search is regex matching, not literal substring) -/

/-- Claim C5, counterexample to the claim as stated: with query `"."` the
code includes a record none of whose fields contains `"."` as a literal
substring, because the query is interpreted as a regular expression (`.`
matches any character). -/
theorem search_regex_counterexample :
    filterView "." [[("name", "xyz")]] = [[("name", "xyz")]] ∧
    rowMatchesSpec "." [("name", "xyz")] = false := by
  constructor
  · rfl
  · rfl

/-- Claim C5 amended: for queries free of regex metacharacters (after
case-lowering) the filter behaves exactly as the claim says — a record is
kept iff some field's text contains the query as a case-insensitive literal
substring, and the empty query keeps every record.  For metacharacter
queries the code instead performs regex matching (see the counterexample);
a query that is an invalid regex (e.g. `"("`) even raises `re.error`. -/
theorem filterView_literal_substring (q : String) (rows : List Fields)
    (hq : noMeta (pyLower q) = true) :
    filterView q rows
      = if q = "" then rows else rows.filter (rowMatchesSpec q) := by
  have hrow : rowMatches q = rowMatchesSpec q := by
    funext r
    unfold rowMatches rowMatchesSpec
    have hkv : (fun kv : String × String => reSearch (pyLower q) (pyLower kv.2))
        = (fun kv : String × String => containsSubstr (pyLower kv.2) (pyLower q)) :=
      funext (fun kv => reSearch_eq_containsSubstr (pyLower q) (pyLower kv.2) hq)
    rw [hkv]
  unfold filterView
  rw [hrow]

/-- Witness for the amended C5: the spec's own example — `city="Vellore"`
matches the query `"VELL"` case-insensitively, a non-matching row is
dropped. -/
theorem filterView_literal_substring_witness :
    noMeta (pyLower "VELL") = true ∧
    filterView "VELL" [[("city", "Vellore")], [("city", "Paris")]]
      = if ("VELL" : String) = ""
        then [[("city", "Vellore")], [("city", "Paris")]]
        else [[("city", "Vellore")], [("city", "Paris")]].filter
          (rowMatchesSpec "VELL") :=
  ⟨by decide,
    filterView_literal_substring "VELL"
      [[("city", "Vellore")], [("city", "Paris")]] (by decide)⟩

/-! ## Claim C6 (CSV import tolerates row failures, counts successes) -/

/-- Claim C6: CSV import attempts a create call for every row, in order —
a failing row never stops the batch — and the reported count is exactly the
number of rows whose create call succeeded. -/
theorem csvImport_attempts_all_counts_successes (rows : List (Fields × Bool)) :
    (csvImport rows).1 = rows.map Prod.fst ∧
    (csvImport rows).2 = (rows.filter (fun rb => rb.2)).length := by
  unfold csvImport
  rw [csvImport_foldl]
  simp

/-! ## Claim C7 (update payloads exclude `id` and `createdAt`) -/

/-- Claim C7: every update issued by "Save edits" carries a payload without
the keys `id` (removed by `set_index("id")`) and `createdAt` (popped on
line 206). -/
theorem save_edits_payload_excludes_reserved (v e : List Fields) :
    (saveEdits v e).all
      (fun u => !(hasKey u.2 "id") && !(hasKey u.2 "createdAt")) = true := by
  rw [List.all_eq_true]
  intro u hu
  unfold saveEdits at hu
  rw [List.mem_filterMap] at hu
  obtain ⟨rid, -, hd⟩ := hu
  obtain ⟨before, after, hb, ha, hne, rfl⟩ := diffAt_eq_some hd
  have hid : hasKey after "id" = false := setIndexId_no_id (lookup_mem ha)
  have h1 : hasKey (stripPayload after) "id" = false :=
    hasKey_filter_mono after _ _ hid
  have h2 : hasKey (stripPayload after) "createdAt" = false := by
    apply hasKey_filter_false
    intro kv hkv
    rw [Bool.and_eq_true, Bool.not_eq_true', Bool.not_eq_true'] at hkv
    exact hkv.2
  simp [stripPayload] at h1 h2 ⊢
  simp [h1, h2]

/-! ## Claim C8 (health check is total and error-classifying) -/

/-- Claim C8: the health check returns `false` on every transport/timeout
error (any exception from `requests.get`) and on every status code that
`raise_for_status` treats as an error (the non-2xx error codes 4xx/5xx), and
`true` otherwise — in particular on every 2xx response.  Being a total
function into `Bool`, it never propagates an exception (the code's
`except Exception: return False` is the catch-all). -/
theorem api_ok_total_spec (e : String) (s : Nat) :
    api_ok (Except.error e) = false ∧
    api_ok (Except.ok s) = (decide (s < 400) || decide (600 ≤ s)) := by
  refine ⟨rfl, ?_⟩
  simp only [api_ok, raise_for_status]
  split_ifs with h
  · have hx : ¬ s < 400 := by omega
    have hy : ¬ 600 ≤ s := by omega
    simp [hx, hy]
  · have hx : s < 400 ∨ 600 ≤ s := by omega
    rcases hx with hx | hx <;> simp [hx]

/-! ## Claim C9 (all-blank Add still creates, with empty payload) -/

/-- Claim C9: submitting the Add form with every input blank still issues
exactly one create call, and its payload is the empty field mapping
(line 254 sends `payload if payload else {}`; the handler never suppresses
the call). -/
theorem add_all_blank_one_empty_create (nameIn noteIn k1 v1 k2 v2 : String)
    (h1 : pyStrip nameIn = "") (h2 : pyStrip noteIn = "")
    (h3 : pyStrip k1 = "") (h4 : pyStrip k2 = "") :
    addCalls nameIn noteIn k1 v1 k2 v2 = [([] : Fields)] := by
  unfold addCalls addPayload
  simp [h1, h2, h3, h4]

/-- Witness for C9: concrete blank inputs (including whitespace-only ones)
produce exactly one create call with the empty payload. -/
theorem add_all_blank_one_empty_create_witness :
    pyStrip "  " = "" ∧ pyStrip "" = "" ∧ pyStrip " " = "" ∧ pyStrip "\t" = "" ∧
    addCalls "  " "" " " "ignored" "\t" "zz" = [([] : Fields)] :=
  ⟨by decide, by decide, by decide, by decide,
    add_all_blank_one_empty_create "  " "" " " "ignored" "\t" "zz"
      (by decide) (by decide) (by decide) (by decide)⟩

/-! ## Claim C10 (first batch failure aborts the rest, no count) -/

/-- Claim C10: in both batch loops the whole loop runs inside one
`try`/`except`, so the first failing remote call aborts the batch: the calls
before the failure were already issued, the failing call was attempted,
nothing after it is attempted, and no success count is reported (`none`). -/
theorem batch_abort_on_first_failure (ok : String → Bool)
    (pre : List (String × Fields)) (c : String × Fields)
    (post : List (String × Fields))
    (pre2 : List String) (d : String) (post2 : List String)
    (h1 : pre.all (fun u => ok u.1) = true) (h2 : ok c.1 = false)
    (h3 : pre2.all ok = true) (h4 : ok d = false) :
    runUpdates ok (pre ++ c :: post) = (pre ++ [c], none) ∧
    runDeletes ok (pre2 ++ d :: post2) = (pre2 ++ [d], none) :=
  ⟨runUpdates_abort ok c post h2 pre h1, runDeletes_abort ok d post2 h4 pre2 h3⟩

/-- Witness for C10: with the remote failing exactly on id `"2"`, a
three-call batch stops after the failing second call and reports no count,
for updates and deletes alike. -/
theorem batch_abort_on_first_failure_witness :
    ([("1", [("name", "A")])].all
        (fun u => (fun rid => !(rid == "2")) u.1) = true) ∧
    ((fun rid => !(rid == "2")) "2" = false) ∧
    (["a"].all (fun rid => !(rid == "2")) = true) ∧
    (runUpdates (fun rid => !(rid == "2"))
        ([("1", [("name", "A")])] ++ ("2", [("name", "B")]) :: [("3", [("name", "C")])])
      = ([("1", [("name", "A")])] ++ [("2", [("name", "B")])], none) ∧
     runDeletes (fun rid => !(rid == "2")) (["a"] ++ "2" :: ["b"])
      = (["a"] ++ ["2"], none)) :=
  ⟨by decide, by decide, by decide,
    batch_abort_on_first_failure (fun rid => !(rid == "2"))
      [("1", [("name", "A")])] ("2", [("name", "B")]) [("3", [("name", "C")])]
      ["a"] "2" ["b"] (by decide) (by decide) (by decide) (by decide)⟩

end Medchain
